import Mathlib

/-!
# Verification of the chirpy authentication subsystem

Shallow embedding of the auth/session-token code of the `chirpy` repository
(`internal/auth/auth.go` and the handler code in `main.go`), together with
proofs settling the frozen claims about it.

Modelling conventions:

* Wall-clock time is `Int` (Unix seconds, the granularity of JWT
  `NumericDate` claims); `time.Now()` is made an explicit parameter `now`.
* `uuid.UUID` values are modelled as `Nat` (their 128-bit value);
  `uuid.Nil = 0`.
* The cryptographic primitives delegated to libraries
  (HMAC in `golang-jwt/jwt/v5`, argon2id in `alexedwards/argon2id`) are
  modelled symbolically, Dolev-Yao style: a MAC tag / hash digest is the
  term recording the algorithm, key and message, so tag equality coincides
  with "the signature verifies" and collision-freeness is the injectivity
  of constructors.  The compact string serialisation of a JWT is likewise
  modelled by the structured term itself; the claim about flipping single
  characters of the serialisation is read at this term level.
* Fallible Go functions returning `(T, error)` become `Except E T`.
* Randomness (argon2id salt, the refresh-token bytes) is made an explicit
  input parameter.
-/

namespace Chirpy

/-- `uuid.UUID`, modelled by its 128-bit value.  `uuid.Nil` is `0`. -/
abbrev UUID := Nat

/-- Symbolic model of a JWT subject string: either the canonical textual
form of a UUID (`uuid.UUID.String()`, injective) or some other string that
`uuid.Parse` rejects. -/
inductive SubjectStr
  | ofUUID (u : UUID)
  | other (s : String)
deriving DecidableEq, Repr

/-- `uuid.Parse` on a subject string: inverts `uuid.UUID.String()`, fails on
anything else. -/
def uuidParse : SubjectStr → Option UUID
  | .ofUUID u => some u
  | .other _ => none

/-- The JWT signing algorithms relevant to a `[]byte` (symmetric) key in
`golang-jwt/jwt/v5`: the HMAC family, plus representatives of the
non-HMAC headers a presented token may declare (`none`, an RSA method). -/
inductive Alg
  | HS256
  | HS384
  | HS512
  | algNone
  | RS256
deriving DecidableEq, Repr

/-- Whether `jwt/v5` method verification can succeed for this `alg` given a
`[]byte` key: only the HMAC family.  (`SigningMethodNone` rejects any real
key; RSA methods reject a `[]byte` key.) -/
def Alg.isHMAC : Alg → Bool
  | .HS256 => true
  | .HS384 => true
  | .HS512 => true
  | .algNone => false
  | .RS256 => false

/-- `jwt.RegisteredClaims` as populated/consumed by this code: issuer,
issued-at, expires-at (both optional in a presented token), subject. -/
structure RegisteredClaims where
  issuer : String
  issuedAt : Option Int
  expiresAt : Option Int
  subject : SubjectStr
deriving DecidableEq, Repr

/-- Symbolic HMAC tag: records the algorithm, key and signed claims.  Tag
equality is exactly "this signature verifies under this algorithm and
key"; constructor injectivity models collision-freeness. -/
structure Mac where
  alg : Alg
  key : String
  msg : RegisteredClaims
deriving DecidableEq, Repr

/-- Computing the MAC over the claim encoding (the `SignedString` /
`Method.Verify` primitive). -/
def macSign (alg : Alg) (key : String) (msg : RegisteredClaims) : Mac :=
  ⟨alg, key, msg⟩

/-- Symbolic model of a compact-serialised JWT string: the declared header
algorithm, the claims, and the signature part.  Any alteration of the
serialisation is an alteration of one of these components. -/
structure JWTString where
  alg : Alg
  claims : RegisteredClaims
  sig : Mac
deriving DecidableEq, Repr

/-- The error classes `ValidateJWT` can surface, as distinguished by
`golang-jwt/jwt/v5` plus the `uuid.Parse` step.  `signatureInvalid`
collapses the library's pre-claims-validation failures (unknown/unusable
algorithm for the key, signature mismatch), all of which are
token-invalid, not token-expired. -/
inductive JWTError
  | signatureInvalid
  | expired
  | subjectInvalid
deriving DecidableEq, Repr

/-- `MakeJWT(userID, tokenSecret, expiresIn)` at wall-clock `now`: builds
`RegisteredClaims{Issuer: "chirpy", IssuedAt: now, ExpiresAt: now+expiresIn,
Subject: userID.String()}` and signs with HS256 over `tokenSecret`. -/
def makeJWT (userID : UUID) (tokenSecret : String) (expiresIn : Int) (now : Int) : JWTString :=
  let claims : RegisteredClaims :=
    { issuer := "chirpy"
      issuedAt := some now
      expiresAt := some (now + expiresIn)
      subject := .ofUUID userID }
  { alg := .HS256, claims := claims, sig := macSign .HS256 tokenSecret claims }

/-- The `jwt/v5` default claims validation applied by `ParseWithClaims`
(zero leeway, issued-at not checked): the token is expired iff an `exp`
claim is present and `now < exp` fails, i.e. `exp ≤ now`. -/
def claimsExpired (c : RegisteredClaims) (now : Int) : Bool :=
  match c.expiresAt with
  | some exp => decide (exp ≤ now)
  | none => false

/-- `ValidateJWT(tokenString, tokenSecret)` at wall-clock `now`, following
`jwt.ParseWithClaims` with a keyfunc that returns `[]byte(tokenSecret)`
unconditionally (no `WithValidMethods` restriction): resolve the declared
algorithm (non-HMAC methods cannot verify against a byte key), verify the
signature, run default claims validation (expiry), then `uuid.Parse` the
subject. -/
def validateJWT (tok : JWTString) (tokenSecret : String) (now : Int) : Except JWTError UUID :=
  if tok.alg.isHMAC = false then .error .signatureInvalid
  else if tok.sig ≠ macSign tok.alg tokenSecret tok.claims then .error .signatureInvalid
  else if claimsExpired tok.claims now then .error .expired
  else
    match uuidParse tok.claims.subject with
    | some u => .ok u
    | none => .error .subjectInvalid

/-! ## Password hashing (`HashPassword` / `CheckPassword` over argon2id) -/

/-- Symbolic model of a well-formed argon2id hash string
`$argon2id$v=19$m=...,t=...,p=...$salt$key`: the salt and the derived key,
the key being the ideal-hash term over (salt, password). -/
structure Argon2Hash where
  salt : Nat
  keySalt : Nat
  keyPassword : String
deriving DecidableEq, Repr

/-- A stored password-hash string: either a well-formed argon2id encoding
or a corrupt string that `argon2id.ComparePasswordAndHash` fails to
decode. -/
inductive PasswordHash
  | wellFormed (h : Argon2Hash)
  | corrupt (s : String)
deriving DecidableEq, Repr

/-- `HashPassword(password)` = `argon2id.CreateHash(password, DefaultParams)`
with the random salt made an explicit parameter: derives the key from
(salt, password) and encodes both. -/
def hashPassword (password : String) (salt : Nat) : PasswordHash :=
  .wellFormed { salt := salt, keySalt := salt, keyPassword := password }

/-- `CheckPassword(password, hash)` =
`argon2id.ComparePasswordAndHash(password, hash)`: decode the hash string
(error on a corrupt encoding), re-derive the key with the stored salt and
compare in constant time; a legitimate mismatch is `ok false`, not an
error. -/
def checkPassword (password : String) : PasswordHash → Except Unit Bool
  | .corrupt _ => .error ()
  | .wellFormed h => .ok (decide (h.keySalt = h.salt ∧ h.keyPassword = password))

/-! ## Credential extraction (`GetBearerToken`) -/

/-- `unicode.IsSpace` restricted to the characters relevant here (the
Latin-1 white space set used by `strings.Fields`). -/
def goIsSpace (c : Char) : Bool :=
  c = ' ' ∨ c = '\t' ∨ c = '\n' ∨ c = '\x0b' ∨ c = '\x0c' ∨ c = '\r' ∨
    c = '\x85' ∨ c = '\xa0'

/-- Worker for `strings.Fields`: walk the characters, `cur` holding the
(reversed) characters of the field being read; emit a field at each run
of white space and at the end. -/
def fieldsGo : List Char → List Char → List String
  | [], cur => if cur.isEmpty then [] else [⟨cur.reverse⟩]
  | c :: rest, cur =>
    if goIsSpace c then
      if cur.isEmpty then fieldsGo rest []
      else ⟨cur.reverse⟩ :: fieldsGo rest []
    else fieldsGo rest (c :: cur)

/-- `strings.Fields(s)`: split `s` around runs of white space; no empty
fields. -/
def stringsFields (s : String) : List String :=
  fieldsGo s.data []

/-- An `http.Header` restricted to what the code reads: an association
list from (canonical) header name to value. -/
abbrev Headers := List (String × String)

/-- `http.Header.Get(key)`: first value for the key, `""` when absent. -/
def headersGet (headers : Headers) (key : String) : String :=
  match headers.find? (fun p => p.1 = key) with
  | some p => p.2
  | none => ""

/-- `GetBearerToken(headers)`: read the `Authorization` header (error when
absent/empty), split into white-space-separated fields, require exactly
two fields with first the literal `Bearer`, return the second. -/
def getBearerToken (headers : Headers) : Except String String :=
  let authHeader := headersGet headers "Authorization"
  if authHeader = "" then .error "empty Authorization header"
  else
    match stringsFields authHeader with
    | [f0, f1] =>
      if f0 = "Bearer" then .ok f1
      else .error "malformed Authorization header, expected Bearer"
    | _ => .error "malformed Authorization header"

/-! ## Refresh-token store and the session handlers -/

/-- A persisted refresh-token row (`refresh_tokens` table): token string,
owning user, expiry, nullable revocation timestamp. -/
structure RefreshRow where
  token : String
  userID : UUID
  expiresAt : Int
  revokedAt : Option Int
deriving DecidableEq, Repr

/-- The refresh-token table, as the list of its rows. -/
abbrev RefreshDB := List RefreshRow

/-- Modelled from the spec: the `find-by-token` store operation
(`GetRefreshToken`, whose SQL query file is not in the sources): look the
row up by its token string, which is the primary key. -/
def getRefreshToken (db : RefreshDB) (tok : String) : Option RefreshRow :=
  db.find? (fun r => r.token = tok)

/-- Modelled from the spec: the fixed long lifetime of a refresh token
(60 days, in seconds); the issuing SQL is not in the sources. -/
def refreshTokenLifetime : Int := 60 * 24 * 60 * 60

/-- Modelled from the spec: the `insert` store operation
(`CreateRefreshToken`, whose SQL query file is not in the sources):
persist {token, userID, expires-at = now + fixed long lifetime,
revoked-at = null}. -/
def createRefreshToken (db : RefreshDB) (tok : String) (userID : UUID) (now : Int) : RefreshDB :=
  db ++ [{ token := tok, userID := userID,
           expiresAt := now + refreshTokenLifetime, revokedAt := none }]

/-- Modelled from the spec: the `set-revoked-at-by-token` store operation
(`RevokeRefreshToken`, whose SQL query file is not in the sources): set
revoked-at = now on the row with this token if not already revoked; a
nonexistent or already-revoked token is not an error. -/
def revokeRefreshToken (db : RefreshDB) (tok : String) (now : Int) : RefreshDB :=
  db.map (fun r =>
    if r.token = tok ∧ r.revokedAt = none then { r with revokedAt := some now } else r)

/-- The distinguished failure cases of the refresh-token lookup step of
`handlerRefresh` (each branch logs its own message before the 401). -/
inductive RefreshErr
  | tokenNotFound
  | tokenRevoked
  | tokenExpired
deriving DecidableEq, Repr

/-- The refresh-token validation step of `handlerRefresh`, lines 715-734:
`GetRefreshToken` failing means 401 (absent row), then
`dbTokenRecord.RevokedAt.Valid` means 401, then
`dbTokenRecord.ExpiresAt.Before(time.Now())` means 401; otherwise the row
is accepted. -/
def validateRefreshToken (db : RefreshDB) (tok : String) (now : Int) :
    Except RefreshErr RefreshRow :=
  match getRefreshToken db tok with
  | none => .error .tokenNotFound
  | some r =>
    if r.revokedAt.isSome then .error .tokenRevoked
    else if r.expiresAt < now then .error .tokenExpired
    else .ok r

/-- A user row (`users` table). -/
structure UserRow where
  id : UUID
  createdAt : Int
  updatedAt : Int
  email : String
  hashedPassword : PasswordHash
  isChirpyRed : Bool
deriving DecidableEq, Repr

/-- The users table, as the list of its rows. -/
abbrev UserDB := List UserRow

/-- `GetUserByEmail` (`SELECT * FROM users WHERE email = $1 LIMIT 1`):
first row with this email, if any. -/
def getUserByEmail (users : UserDB) (email : String) : Option UserRow :=
  users.find? (fun u => u.email = email)

/-- The `userReturn` JSON body of a successful login: public user fields
plus the `token` and `refresh_token` fields. -/
structure UserReturn where
  id : UUID
  createdAt : Int
  updatedAt : Int
  email : String
  token : JWTString
  refreshToken : String
  isChirpyRed : Bool
deriving DecidableEq, Repr

/-- The client-visible response bodies the modelled handlers write. -/
inductive Body
  | empty
  | text (s : String)
  | loginJSON (u : UserReturn)
  | refreshJSON (token : JWTString)
deriving DecidableEq, Repr

/-- A client-visible HTTP response: status code, the content type the
handler sets, and the body bytes. -/
structure HttpResponse where
  status : Nat
  contentType : Option String
  body : Body
deriving DecidableEq, Repr

/-- The decoded `loginRequest` body: password, email, and the (decoded but
never used) `expires_in_seconds` field. -/
structure LoginRequest where
  password : String
  email : String
  expiresInSeconds : Int
deriving DecidableEq, Repr

/-- `handlerLogin`, after JSON decoding: look the user up by email, check
the password against the stored hash (lookup failure, a hash-check error
and a mismatch each write the same 401 `Incorrect email or password`
response); on match issue an access token via `MakeJWT(id, secret, 1h)`,
generate a refresh token (`MakeRefreshToken` is not in the sources; its
random output is the explicit `freshToken` parameter, modelled from the
spec as an unguessable random string), persist it, and respond 200 with
the `userReturn` JSON.  Returns the response and the refresh-token table
after the request. -/
def handlerLogin (users : UserDB) (db : RefreshDB) (req : LoginRequest)
    (secret : String) (freshToken : String) (now : Int) : HttpResponse × RefreshDB :=
  match getUserByEmail users req.email with
  | none =>
    ({ status := 401, contentType := some "text/html",
       body := .text "Incorrect email or password" }, db)
  | some dbUser =>
    match checkPassword req.password dbUser.hashedPassword with
    | .error _ =>
      ({ status := 401, contentType := some "text/html",
         body := .text "Incorrect email or password" }, db)
    | .ok false =>
      ({ status := 401, contentType := some "text/html",
         body := .text "Incorrect email or password" }, db)
    | .ok true =>
      let token := makeJWT dbUser.id secret 3600 now
      let db' := createRefreshToken db freshToken dbUser.id now
      ({ status := 200, contentType := some "application/json",
         body := .loginJSON
           { id := dbUser.id, createdAt := dbUser.createdAt,
             updatedAt := dbUser.updatedAt, email := dbUser.email,
             token := token, refreshToken := freshToken,
             isChirpyRed := dbUser.isChirpyRed } }, db')

/-- `handlerRefresh`: extract the bearer token (401 on failure), validate
it against the store (401 on any failure), then mint a new access token
for the stored row's userID via `MakeJWT(userID, secret, 1h)` and respond
200 with it.  Returns the response and the refresh-token table after the
request. -/
def handlerRefresh (db : RefreshDB) (headers : Headers) (secret : String) (now : Int) :
    HttpResponse × RefreshDB :=
  match getBearerToken headers with
  | .error _ => ({ status := 401, contentType := none, body := .empty }, db)
  | .ok tok =>
    match validateRefreshToken db tok now with
    | .error _ => ({ status := 401, contentType := none, body := .empty }, db)
    | .ok r =>
      let accessToken := makeJWT r.userID secret 3600 now
      ({ status := 200, contentType := some "application/json",
         body := .refreshJSON accessToken }, db)

/-- `handlerRevoke`: extract the bearer token (401 on failure), call the
store's revoke (which, per the spec, does not error on an unknown or
already-revoked token), respond 204 no-content.  Returns the response and
the refresh-token table after the request. -/
def handlerRevoke (db : RefreshDB) (headers : Headers) (now : Int) :
    HttpResponse × RefreshDB :=
  match getBearerToken headers with
  | .error _ => ({ status := 401, contentType := none, body := .empty }, db)
  | .ok tok => ({ status := 204, contentType := none, body := .empty },
                revokeRefreshToken db tok now)

/-- The server state `handlerReset` touches: the users table and the
`fileserverHits` counter. -/
structure ResetState where
  users : UserDB
  fileserverHits : Int
deriving DecidableEq, Repr

/-- `handlerReset`: 403 and no action unless the configured platform is
`"dev"`; then `DeleteAllUsers` (its success is the explicit `deleteOk`
parameter; on an error the single atomic DELETE changed nothing and the
handler returns 500 without touching the counter); only after a
successful delete does it respond 200 and swap the hit counter to 0. -/
def handlerReset (platform : String) (st : ResetState) (deleteOk : Bool) :
    Nat × ResetState :=
  if platform ≠ "dev" then (403, st)
  else if deleteOk = false then (500, st)
  else (200, { users := [], fileserverHits := 0 })

/-! ## Theorems -/

/-- C1: for every userID `u`, secret `s` and lifetime `L > 0`, validating
the token produced by `MakeJWT(u, s, L)` with the same secret returns
exactly `u` at any wall-clock time strictly before issue-time + L, and
fails with the token-expired error at any time at or after
issue-time + L. -/
theorem makeJWT_validateJWT_roundtrip (u : UUID) (s : String) (L t0 t : Int)
    (hL : 0 < L) :
    (t < t0 + L → validateJWT (makeJWT u s L t0) s t = .ok u) ∧
    (t0 + L ≤ t → validateJWT (makeJWT u s L t0) s t = .error .expired) := by
  constructor <;> intro ht <;>
    simp [validateJWT, makeJWT, macSign, claimsExpired, uuidParse, Alg.isHMAC] <;>
    omega

/-- Witness for C1 at `u = 7`, `s = "secret"`, `L = 3600`, issue time `0`,
checked at times `5` and `3600`. -/
theorem makeJWT_validateJWT_roundtrip_witness :
    validateJWT (makeJWT 7 "secret" 3600 0) "secret" 5 = .ok 7 ∧
    validateJWT (makeJWT 7 "secret" 3600 0) "secret" 3600 = .error .expired :=
  ⟨(makeJWT_validateJWT_roundtrip 7 "secret" 3600 0 5 (by decide)).1 (by decide),
   (makeJWT_validateJWT_roundtrip 7 "secret" 3600 0 3600 (by decide)).2 (by decide)⟩

/-- C2 counterexample: the claim says `ValidateJWT` fails whenever the
token's signing algorithm is not the expected one (HS256, the only one
`MakeJWT` uses).  But the keyfunc ignores the declared method and no
`WithValidMethods` restriction is passed, so a token signed with the same
secret under HS384 — an algorithm that is not the expected one — validates
successfully and returns a userID. -/
theorem validateJWT_accepts_HS384 :
    (JWTString.mk .HS384
        { issuer := "chirpy", issuedAt := some 0, expiresAt := some 3600,
          subject := .ofUUID 7 }
        (macSign .HS384 "secret"
          { issuer := "chirpy", issuedAt := some 0, expiresAt := some 3600,
            subject := .ofUUID 7 })).alg ≠ Alg.HS256 ∧
    validateJWT
      (JWTString.mk .HS384
        { issuer := "chirpy", issuedAt := some 0, expiresAt := some 3600,
          subject := .ofUUID 7 }
        (macSign .HS384 "secret"
          { issuer := "chirpy", issuedAt := some 0, expiresAt := some 3600,
            subject := .ofUUID 7 }))
      "secret" 0 = .ok 7 := by
  constructor
  · decide
  · rfl

/-- C2 (amended): `ValidateJWT(t, s)` returns the token-invalid
(signature) error whenever the signature does not verify under `s` and the
declared algorithm — in particular for any validly issued token verified
with a different secret, and for any token that keeps a valid token's
signature but alters its claims — and whenever the declared algorithm is
outside the HMAC family; a well-signed, unexpired token whose subject is
not a well-formed UserID fails with the subject error; whenever validation
succeeds the signature did verify under `s`.  (The algorithm is *not*
required to be HS256: same-secret HS384/HS512 tokens are accepted.) -/
theorem validateJWT_rejects_invalid (tok : JWTString) (s : String) (now : Int) :
    (tok.sig ≠ macSign tok.alg s tok.claims ∨ tok.alg.isHMAC = false →
      validateJWT tok s now = .error .signatureInvalid) ∧
    (∀ u L t0 s', s' ≠ s →
      validateJWT (makeJWT u s L t0) s' now = .error .signatureInvalid) ∧
    (∀ u L t0 c', c' ≠ (makeJWT u s L t0).claims →
      validateJWT { alg := .HS256, claims := c', sig := (makeJWT u s L t0).sig } s now
        = .error .signatureInvalid) ∧
    (tok.alg.isHMAC = true → tok.sig = macSign tok.alg s tok.claims →
      claimsExpired tok.claims now = false →
      uuidParse tok.claims.subject = none →
      validateJWT tok s now = .error .subjectInvalid) ∧
    (∀ u, validateJWT tok s now = .ok u →
      tok.sig = macSign tok.alg s tok.claims ∧ uuidParse tok.claims.subject = some u) := by
  refine ⟨?_, ?_, ?_, ?_, ?_⟩
  · intro h
    rcases h with h | h
    · unfold validateJWT
      by_cases halg : tok.alg.isHMAC = false
      · simp [halg]
      · simp [halg, h]
    · simp [validateJWT, h]
  · intro u L t0 s' hs
    have hmac : macSign .HS256 s (makeJWT u s L t0).claims ≠
        macSign .HS256 s' (makeJWT u s L t0).claims := by
      simp [macSign]; exact fun h => hs h.symm
    simp [validateJWT, makeJWT, macSign, Alg.isHMAC] at *
    intro h
    exact absurd h.symm hs
  · intro u L t0 c' hc
    have : macSign .HS256 s (makeJWT u s L t0).claims ≠ macSign .HS256 s c' := by
      simp [macSign]
      exact fun h => hc h.symm
    simp [validateJWT, makeJWT, macSign, Alg.isHMAC] at *
    intro h
    exact absurd h.symm hc
  · intro halg hsig hexp hsub
    simp [validateJWT, halg, hsig, hexp, hsub]
  · intro u hok
    unfold validateJWT at hok
    by_cases halg : tok.alg.isHMAC = false
    · simp [halg] at hok
    · by_cases hsig : tok.sig = macSign tok.alg s tok.claims
      · refine ⟨hsig, ?_⟩
        by_cases hexp : claimsExpired tok.claims now
        · simp [halg, hsig, hexp] at hok
        · simp [halg, hsig, hexp] at hok
          cases hp : uuidParse tok.claims.subject with
          | none => rw [hp] at hok; cases hok
          | some v => rw [hp] at hok; simp at hok; rw [hok]
      · simp [halg, hsig] at hok

/-- Witness for C2's amended theorem: a valid token verified with the
wrong secret is rejected with the signature error. -/
theorem validateJWT_rejects_invalid_witness :
    validateJWT (makeJWT 7 "secret" 3600 0) "wrong" 5 = .error .signatureInvalid :=
  (validateJWT_rejects_invalid (makeJWT 7 "secret" 3600 0) "secret" 5).2.1
    7 3600 0 "wrong" (by decide)

/-- C9: for every password `p` and salt, `Verify(p, Hash(p))` is true, and
for distinct passwords `p1 ≠ p2`, `Verify(p1, Hash(p2))` is false (the
symbolic ideal-hash model makes "with overwhelming probability" exact). -/
theorem checkPassword_hashPassword (p p1 p2 : String) (salt : Nat) (h : p1 ≠ p2) :
    checkPassword p (hashPassword p salt) = .ok true ∧
    checkPassword p1 (hashPassword p2 salt) = .ok false := by
  constructor
  · simp [checkPassword, hashPassword]
  · simp [checkPassword, hashPassword]
    exact fun hpq => absurd hpq.symm h

/-- Witness for C9 at `p = "pw"`, `p1 = "a"`, `p2 = "b"`, salt `3`. -/
theorem checkPassword_hashPassword_witness :
    checkPassword "pw" (hashPassword "pw" 3) = .ok true ∧
    checkPassword "a" (hashPassword "b" 3) = .ok false :=
  checkPassword_hashPassword "pw" "a" "b" 3 (by decide)

/-- Helper: the refresh-token lookup step accepts a row exactly when the
row is present, unrevoked, and `now ≤ expires-at` (`ExpiresAt.Before(now)`
is strict). -/
theorem validateRefreshToken_ok_iff (db : RefreshDB) (tok : String) (now : Int)
    (r : RefreshRow) :
    validateRefreshToken db tok now = Except.ok r ↔
      getRefreshToken db tok = some r ∧ r.revokedAt = none ∧ now ≤ r.expiresAt := by
  unfold validateRefreshToken
  cases h : getRefreshToken db tok with
  | none => simp
  | some r' =>
    cases hrev : r'.revokedAt with
    | some ts =>
      simp [hrev]
      rintro rfl
      simp [hrev]
    | none =>
      by_cases hexp : r'.expiresAt < now
      · simp [hrev, hexp]
        rintro rfl
        omega
      · simp [hrev, hexp]
        rintro rfl
        exact ⟨hrev, by omega⟩

/-- C3 counterexample: the claim says validation fails with token-expired
when now ≥ expires-at, and that a token is live only while
now < expires-at.  The code tests `ExpiresAt.Before(time.Now())`, which is
strict, so at the instant now = expires-at (here both 100) the token still
validates successfully. -/
theorem validateRefreshToken_at_exact_expiry :
    (100 : Int) ≥ 100 ∧
    validateRefreshToken [⟨"rt", 7, 100, none⟩] "rt" 100
      = Except.ok ⟨"rt", 7, 100, none⟩ := by
  constructor
  · decide
  · rfl

/-- C3 (amended): the lookup step distinguishes exactly three failure
cases — token-not-found when no row with the token exists, token-revoked
when the row's revoked-at is set, token-expired when now > expires-at
(strictly after, `ExpiresAt.Before(now)`) — and a token validates
successfully iff its row exists, revoked-at is null and now ≤ expires-at
(at now = expires-at it still validates). -/
theorem validateRefreshToken_cases (db : RefreshDB) (tok : String) (now : Int) :
    (getRefreshToken db tok = none →
      validateRefreshToken db tok now = .error .tokenNotFound) ∧
    (∀ r, getRefreshToken db tok = some r →
      (r.revokedAt ≠ none → validateRefreshToken db tok now = .error .tokenRevoked) ∧
      (r.revokedAt = none → r.expiresAt < now →
        validateRefreshToken db tok now = .error .tokenExpired) ∧
      (r.revokedAt = none → now ≤ r.expiresAt →
        validateRefreshToken db tok now = .ok r)) ∧
    (∀ r, validateRefreshToken db tok now = .ok r ↔
      getRefreshToken db tok = some r ∧ r.revokedAt = none ∧ now ≤ r.expiresAt) := by
  refine ⟨?_, ?_, fun r => validateRefreshToken_ok_iff db tok now r⟩
  · intro h
    simp [validateRefreshToken, h]
  · intro r h
    refine ⟨?_, ?_, ?_⟩
    · intro hrev
      have : r.revokedAt.isSome := Option.ne_none_iff_isSome.1 hrev
      simp [validateRefreshToken, h, this]
    · intro hrev hexp
      simp [validateRefreshToken, h, hrev, hexp]
    · intro hrev hexp
      have : ¬(r.expiresAt < now) := by omega
      simp [validateRefreshToken, h, hrev, this]

/-- Witness for C3's amended theorem on a one-row table: an unknown token
is not-found, a revoked row is token-revoked, and a live row is
accepted. -/
theorem validateRefreshToken_cases_witness :
    validateRefreshToken [⟨"rt", 7, 100, none⟩] "zz" 10 = .error .tokenNotFound ∧
    validateRefreshToken [⟨"rv", 7, 100, some 4⟩] "rv" 10 = .error .tokenRevoked ∧
    validateRefreshToken [⟨"rt", 7, 100, none⟩] "rt" 10 = .ok ⟨"rt", 7, 100, none⟩ :=
  ⟨(validateRefreshToken_cases [⟨"rt", 7, 100, none⟩] "zz" 10).1 (by decide),
   ((validateRefreshToken_cases [⟨"rv", 7, 100, some 4⟩] "rv" 10).2.1
      ⟨"rv", 7, 100, some 4⟩ (by decide)).1 (by decide),
   ((validateRefreshToken_cases [⟨"rt", 7, 100, none⟩] "rt" 10).2.1
      ⟨"rt", 7, 100, none⟩ (by decide)).2.2 rfl (by decide)⟩

/-- C4: revocation sets revoked-at = now on an unrevoked row with the
token; a row whose revoked-at is set is left untouched by revocation and
by issuing new tokens (one-way); revoking again is a no-op (idempotent);
revoking a token with no row changes nothing; and a request with a
well-formed bearer header always gets the 204 no-content success response
from the revoke endpoint, whatever the table contents. -/
theorem revokeRefreshToken_one_way (db : RefreshDB) (tok tok' : String)
    (uid : UUID) (now now' : Int) (headers : Headers) :
    (∀ r ∈ db, r.token = tok → r.revokedAt = none →
      { r with revokedAt := some now } ∈ revokeRefreshToken db tok now) ∧
    (∀ r ∈ db, ∀ ts, r.revokedAt = some ts →
      r ∈ revokeRefreshToken db tok now ∧ r ∈ createRefreshToken db tok' uid now) ∧
    (revokeRefreshToken (revokeRefreshToken db tok now) tok now'
      = revokeRefreshToken db tok now) ∧
    (getRefreshToken db tok = none → revokeRefreshToken db tok now = db) ∧
    (∀ t, getBearerToken headers = .ok t →
      (handlerRevoke db headers now).1
        = { status := 204, contentType := none, body := .empty }) := by
  refine ⟨?_, ?_, ?_, ?_, ?_⟩
  · intro r hr htok hrev
    exact List.mem_map.2 ⟨r, hr, by simp [htok, hrev]⟩
  · intro r hr ts hts
    constructor
    · exact List.mem_map.2 ⟨r, hr, by simp [hts]⟩
    · exact List.mem_append_left _ hr
  · unfold revokeRefreshToken
    rw [List.map_map]
    apply List.map_congr_left
    intro r _
    by_cases h1 : r.token = tok ∧ r.revokedAt = none
    · simp [h1]
    · simp [Function.comp, h1]
  · intro hnone
    have hall : ∀ r ∈ db, ¬(r.token = tok) := by
      simpa [getRefreshToken, List.find?_eq_none] using hnone
    unfold revokeRefreshToken
    have : db.map (fun r =>
        if r.token = tok ∧ r.revokedAt = none then { r with revokedAt := some now }
        else r) = db.map id := by
      apply List.map_congr_left
      intro r hr
      simp [hall r hr]
    simpa using this
  · intro t ht
    simp [handlerRevoke, ht]

/-- Witness for C4: revoking a revoked row leaves it revoked with its
original timestamp, and a revoke request with a well-formed bearer header
for an unknown token still gets 204. -/
theorem revokeRefreshToken_one_way_witness :
    (⟨"rv", 7, 100, some 5⟩ : RefreshRow) ∈
      revokeRefreshToken [⟨"rv", 7, 100, some 5⟩] "rv" 9 ∧
    (handlerRevoke [] [("Authorization", "Bearer zz")] 9).1
      = { status := 204, contentType := none, body := .empty } :=
  ⟨((revokeRefreshToken_one_way [⟨"rv", 7, 100, some 5⟩] "rv" "x" 3 9 9 []).2.1
      ⟨"rv", 7, 100, some 5⟩ (by decide) 5 rfl).1,
   (revokeRefreshToken_one_way [] "rv" "x" 3 9 9 [("Authorization", "Bearer zz")]).2.2.2.2
      "zz" rfl⟩

/-- C5: the three login failure causes — no user with the email, a
hash-check internal failure, and a password mismatch — produce the
identical client-visible outcome (status 401, same content type, body
`Incorrect email or password`) and leave the refresh-token table
unchanged, so the response reveals nothing about which cause occurred. -/
theorem handlerLogin_uniform_unauthorized (users : UserDB) (db : RefreshDB)
    (req : LoginRequest) (secret freshToken : String) (now : Int) :
    (getUserByEmail users req.email = none →
      handlerLogin users db req secret freshToken now =
        ({ status := 401, contentType := some "text/html",
           body := .text "Incorrect email or password" }, db)) ∧
    (∀ u, getUserByEmail users req.email = some u →
      checkPassword req.password u.hashedPassword = .error () →
      handlerLogin users db req secret freshToken now =
        ({ status := 401, contentType := some "text/html",
           body := .text "Incorrect email or password" }, db)) ∧
    (∀ u, getUserByEmail users req.email = some u →
      checkPassword req.password u.hashedPassword = .ok false →
      handlerLogin users db req secret freshToken now =
        ({ status := 401, contentType := some "text/html",
           body := .text "Incorrect email or password" }, db)) := by
  refine ⟨?_, ?_, ?_⟩
  · intro h
    simp [handlerLogin, h]
  · intro u hu hc
    simp [handlerLogin, hu, hc]
  · intro u hu hc
    simp [handlerLogin, hu, hc]

/-- Witness for C5: an unknown email, a corrupt stored hash, and a wrong
password each yield the same 401 response on concrete tables. -/
theorem handlerLogin_uniform_unauthorized_witness :
    handlerLogin [] [] ⟨"pw", "a@b", 0⟩ "sec" "rt" 9 =
      ({ status := 401, contentType := some "text/html",
         body := .text "Incorrect email or password" }, []) ∧
    handlerLogin [⟨7, 1, 2, "a@b", .corrupt "xx", false⟩] [] ⟨"pw", "a@b", 0⟩ "sec" "rt" 9 =
      ({ status := 401, contentType := some "text/html",
         body := .text "Incorrect email or password" }, []) ∧
    handlerLogin [⟨7, 1, 2, "a@b", hashPassword "pw" 3, false⟩] [] ⟨"no", "a@b", 0⟩ "sec" "rt" 9 =
      ({ status := 401, contentType := some "text/html",
         body := .text "Incorrect email or password" }, []) :=
  ⟨(handlerLogin_uniform_unauthorized [] [] ⟨"pw", "a@b", 0⟩ "sec" "rt" 9).1 rfl,
   (handlerLogin_uniform_unauthorized [⟨7, 1, 2, "a@b", .corrupt "xx", false⟩] []
      ⟨"pw", "a@b", 0⟩ "sec" "rt" 9).2.1 ⟨7, 1, 2, "a@b", .corrupt "xx", false⟩ rfl rfl,
   (handlerLogin_uniform_unauthorized [⟨7, 1, 2, "a@b", hashPassword "pw" 3, false⟩] []
      ⟨"no", "a@b", 0⟩ "sec" "rt" 9).2.2 ⟨7, 1, 2, "a@b", hashPassword "pw" 3, false⟩
      rfl rfl⟩

/-- C6: `GetBearerToken` returns a token exactly when the `Authorization`
header value has exactly two white-space-separated fields with first
field the literal `Bearer`, in which case it returns the second field
(absent/empty headers, other field counts and other scheme literals all
fail); and a wrong-scheme header `Authorization: Token abc` is rejected
identically to a missing header at the client-visible boundary (the
revoke endpoint's response is the same 401 in both cases). -/
theorem getBearerToken_shape (headers : Headers) (t : String) :
    (getBearerToken headers = .ok t ↔
      stringsFields (headersGet headers "Authorization") = ["Bearer", t]) ∧
    (∀ db now, handlerRevoke db [("Authorization", "Token abc")] now
        = handlerRevoke db ([] : Headers) now) := by
  constructor
  · by_cases hempty : headersGet headers "Authorization" = ""
    · rw [hempty]
      have hfs : stringsFields "" = [] := rfl
      simp [getBearerToken, hempty, hfs]
    · rcases hfs : stringsFields (headersGet headers "Authorization")
        with _ | ⟨f0, _ | ⟨f1, _ | ⟨f2, rest⟩⟩⟩
      · simp [getBearerToken, hempty, hfs]
      · simp [getBearerToken, hempty, hfs]
      · by_cases hb : f0 = "Bearer"
        · subst hb
          simp [getBearerToken, hempty, hfs, eq_comm]
        · simp [getBearerToken, hempty, hfs, hb]
      · simp [getBearerToken, hempty, hfs]
  · intro db now
    rfl

/-- Witness for C6: a well-shaped header yields its token; extra
white space between the fields is tolerated by `strings.Fields`. -/
theorem getBearerToken_shape_witness :
    getBearerToken [("Authorization", "Bearer  tok1")] = .ok "tok1" ∧
    handlerRevoke [] [("Authorization", "Token abc")] 3
      = handlerRevoke [] ([] : Headers) 3 :=
  ⟨(getBearerToken_shape [("Authorization", "Bearer  tok1")] "tok1").1.2 rfl,
   (getBearerToken_shape [("Authorization", "Bearer  tok1")] "tok1").2 [] 3⟩

/-- C7: a successful refresh issues a new access token bound to the
stored row's userID and leaves the refresh-token table entirely
unchanged (no rotation, no revocation), so the same refresh token
validates again and yields another access token at any later time up to
its expiry. -/
theorem handlerRefresh_frame (db : RefreshDB) (headers : Headers)
    (secret : String) (now : Int) :
    ((handlerRefresh db headers secret now).2 = db) ∧
    (∀ tok r, getBearerToken headers = .ok tok →
      validateRefreshToken db tok now = .ok r →
      handlerRefresh db headers secret now =
        ({ status := 200, contentType := some "application/json",
           body := .refreshJSON (makeJWT r.userID secret 3600 now) }, db)) ∧
    (∀ tok r now', getBearerToken headers = .ok tok →
      validateRefreshToken db tok now = .ok r → now' ≤ r.expiresAt →
      (handlerRefresh (handlerRefresh db headers secret now).2 headers secret now').1 =
        { status := 200, contentType := some "application/json",
          body := .refreshJSON (makeJWT r.userID secret 3600 now') }) := by
  have hdb : (handlerRefresh db headers secret now).2 = db := by
    unfold handlerRefresh
    split
    · rfl
    · split <;> rfl
  refine ⟨hdb, ?_, ?_⟩
  · intro tok r hb hv
    simp [handlerRefresh, hb, hv]
  · intro tok r now' hb hv hnow'
    rw [hdb]
    have h1 := (validateRefreshToken_ok_iff db tok now r).1 hv
    have h2 : validateRefreshToken db tok now' = .ok r :=
      (validateRefreshToken_ok_iff db tok now' r).2 ⟨h1.1, h1.2.1, hnow'⟩
    simp [handlerRefresh, hb, h2]

/-- Witness for C7: on a concrete live row, refreshing twice with the
same bearer header succeeds both times and the table is unchanged. -/
theorem handlerRefresh_frame_witness :
    handlerRefresh [⟨"rt", 7, 100, none⟩] [("Authorization", "Bearer rt")] "sec" 10 =
      ({ status := 200, contentType := some "application/json",
         body := .refreshJSON (makeJWT 7 "sec" 3600 10) }, [⟨"rt", 7, 100, none⟩]) ∧
    (handlerRefresh
        (handlerRefresh [⟨"rt", 7, 100, none⟩] [("Authorization", "Bearer rt")] "sec" 10).2
        [("Authorization", "Bearer rt")] "sec" 50).1 =
      { status := 200, contentType := some "application/json",
        body := .refreshJSON (makeJWT 7 "sec" 3600 50) } :=
  ⟨(handlerRefresh_frame [⟨"rt", 7, 100, none⟩] [("Authorization", "Bearer rt")] "sec" 10).2.1
      "rt" ⟨"rt", 7, 100, none⟩ rfl rfl,
   (handlerRefresh_frame [⟨"rt", 7, 100, none⟩] [("Authorization", "Bearer rt")] "sec" 10).2.2
      "rt" ⟨"rt", 7, 100, none⟩ 50 rfl rfl (by decide)⟩

/-- C8: a login with correct email and password responds 200 with the
JSON `userReturn` body carrying both the `token` field — always
`MakeJWT(id, secret, 3600 seconds)`, the fixed one-hour lifetime — and
the `refresh_token` field, plus the public user fields; and the response
is unchanged by whatever `expires_in_seconds` value the request body
carries. -/
theorem handlerLogin_success_shape (users : UserDB) (db : RefreshDB)
    (req : LoginRequest) (secret freshToken : String) (now : Int) (u : UserRow)
    (hu : getUserByEmail users req.email = some u)
    (hp : checkPassword req.password u.hashedPassword = .ok true) :
    handlerLogin users db req secret freshToken now =
      ({ status := 200, contentType := some "application/json",
         body := .loginJSON
           { id := u.id, createdAt := u.createdAt, updatedAt := u.updatedAt,
             email := u.email, token := makeJWT u.id secret 3600 now,
             refreshToken := freshToken, isChirpyRed := u.isChirpyRed } },
       createRefreshToken db freshToken u.id now) ∧
    (∀ e, handlerLogin users db { req with expiresInSeconds := e } secret freshToken now
        = handlerLogin users db req secret freshToken now) := by
  constructor
  · simp [handlerLogin, hu, hp]
  · intro e
    rfl

/-- Witness for C8 on concrete tables: the correct password logs in with
status 200, the fixed-lifetime token and the refresh token. -/
theorem handlerLogin_success_shape_witness :
    handlerLogin [⟨7, 1, 2, "a@b", hashPassword "pw" 3, true⟩] [] ⟨"pw", "a@b", 55⟩
        "sec" "rt" 9 =
      ({ status := 200, contentType := some "application/json",
         body := .loginJSON
           { id := 7, createdAt := 1, updatedAt := 2, email := "a@b",
             token := makeJWT 7 "sec" 3600 9, refreshToken := "rt",
             isChirpyRed := true } },
       createRefreshToken [] "rt" 7 9) :=
  (handlerLogin_success_shape [⟨7, 1, 2, "a@b", hashPassword "pw" 3, true⟩] []
      ⟨"pw", "a@b", 55⟩ "sec" "rt" 9 ⟨7, 1, 2, "a@b", hashPassword "pw" 3, true⟩
      rfl rfl).1

/-- C10: with any configured platform other than `"dev"` the admin reset
endpoint responds 403 and changes no state (users kept, hit counter
kept); under `"dev"` a failed deletion responds 500 with state unchanged,
and only after a successful deletion does it respond 200 with the users
gone and the counter swapped to zero. -/
theorem handlerReset_gating (platform : String) (st : ResetState) (deleteOk : Bool)
    (h : platform ≠ "dev") :
    handlerReset platform st deleteOk = (403, st) ∧
    handlerReset "dev" st false = (500, st) ∧
    handlerReset "dev" st true = (200, { users := [], fileserverHits := 0 }) := by
  refine ⟨?_, ?_, ?_⟩
  · simp [handlerReset, h]
  · simp [handlerReset]
  · simp [handlerReset]

/-- Witness for C10 at platform `"prod"` on a concrete state. -/
theorem handlerReset_gating_witness :
    handlerReset "prod" ⟨[⟨7, 1, 2, "a@b", .corrupt "x", false⟩], 5⟩ true
      = (403, ⟨[⟨7, 1, 2, "a@b", .corrupt "x", false⟩], 5⟩) ∧
    handlerReset "dev" ⟨[⟨7, 1, 2, "a@b", .corrupt "x", false⟩], 5⟩ true
      = (200, ⟨[], 0⟩) :=
  ⟨(handlerReset_gating "prod" ⟨[⟨7, 1, 2, "a@b", .corrupt "x", false⟩], 5⟩ true
      (by decide)).1,
   (handlerReset_gating "prod" ⟨[⟨7, 1, 2, "a@b", .corrupt "x", false⟩], 5⟩ true
      (by decide)).2.2⟩

end Chirpy
